import Mathlib

/-!
Verification development for the DataViz backend
(`src/backend_python/main.py`): a shallow embedding of the column
profiler (`analyze_column`) and the chart recommendation engine
(`recommend_charts_from_data`), with theorems settling the spec claims.

Modelling conventions:
* Python floats holding two-decimal score literals are modelled as `ℚ`
  (all comparisons performed by the code on these literals coincide with
  the rational comparisons).
* A recommendation dict is modelled by `Chart`.  The four purely
  presentational string fields of the source dicts (`reason`, `title`,
  `description`, `use_case`) are not carried: no claim concerns their
  content, and each of them is a function of exactly the same inputs
  (the per-type column-name lists and their lengths) as the fields that
  are carried, so every input-independence statement proved here
  transfers to them.
* The `variables` dict of each recommendation is carried in full, as an
  association list in the source's key order.
-/

namespace DataViz

/-- A value of the `variables` dict of a recommendation: a string (a
column name or the literal `"count"`), Python `None`, or a list of
column names. -/
inductive VarVal where
  | s (v : String)
  | null
  | lst (vs : List String)
deriving DecidableEq

/-- One recommendation dict produced by `recommend_charts_from_data`
(presentational string fields omitted, see the module docstring). -/
structure Chart where
  type : String
  score : ℚ
  priority : String
  /-- the source dict's `"variables"` key (`variables` is reserved in Lean) -/
  vars : List (String × VarVal)
deriving DecidableEq

/-- Looks up a role in a recommendation's `variables` dict. -/
def lookupVar (c : Chart) (k : String) : Option VarVal :=
  (c.vars.find? (fun p => p.1 == k)).map (fun p => p.2)

/-- `nameAt l i` models the source's `l[i]` under a guard that makes the
index in bounds, and also the guarded form `l[i] if <in bounds> else None`
(the two agree whenever the bare form does not raise). -/
def nameAt (l : List String) (i : Nat) : VarVal :=
  match l[i]? with
  | some n => VarVal.s n
  | none => VarVal.null

/-- Models `names[0] if names else "count"`. -/
def countOr (l : List String) : VarVal :=
  match l with
  | [] => VarVal.s "count"
  | n :: _ => VarVal.s n

/-- Does the character list start with `pat`? -/
def charsStartWith : List Char → List Char → Bool
  | _, [] => true
  | [], _ :: _ => false
  | c :: cs, p :: ps => c == p && charsStartWith cs ps

/-- Substring test on character lists (Python's `pat in s`). -/
def charsContain : List Char → List Char → Bool
  | [], pat => pat.isEmpty
  | c :: cs, pat => charsStartWith (c :: cs) pat || charsContain cs pat

/-- Python's `pat in s.lower()` substring test (`.lower()` of the source
applied character-wise, as all compared names are Unicode strings whose
lowercasing pandas and Lean agree on character by character). -/
def containsLower (s pat : String) : Bool :=
  charsContain (s.data.map Char.toLower) pat.data

/-- The two-decimal score literal `n/100`: the source writes the float
literal `0.n`; every score is an exact two-decimal value, and the float
comparisons the source performs on them coincide with the rational
ones.  (`mkRat` rather than a decimal literal keeps the scores
kernel-computable.) -/
def sc (n : Nat) : ℚ := mkRat n 100

/-- One column-profile record as consumed by the recommendation engine:
a dict that does carry the `name` and `type` keys. -/
structure ColumnRecord where
  name : String
  type : String
deriving DecidableEq

/- The rule-table chart constructors, in source order (each mirrors one
dict literal of `recommend_charts_from_data`; `nn`, `cn`, `dn` are
`numeric_names`, `categorical_names`, `date_names`). -/

def boxChart (nn cn : List String) : Chart :=
  { type := "box", score := sc 90, priority := "best",
    vars := [("y_axis", nameAt nn 0), ("group_by", nameAt cn 0),
      ("numeric_options", VarVal.lst nn), ("group_options", VarVal.lst cn)] }

def violinChart (nn : List String) : Chart :=
  { type := "violin", score := sc 85, priority := "good",
    vars := [("y_axis", nameAt nn 0), ("options", VarVal.lst nn)] }

def lineChart (nn dn : List String) : Chart :=
  { type := "line", score := sc 98, priority := "best",
    vars := [("x_axis", nameAt dn 0), ("y_axis", nameAt nn 0),
      ("y_options", VarVal.lst nn)] }

def areaChart (nn dn : List String) : Chart :=
  { type := "area", score := sc 92, priority := "best",
    vars := [("x_axis", nameAt dn 0), ("y_axis", nameAt nn 0),
      ("y_options", VarVal.lst nn)] }

def multiLineChart (nn cn dn : List String) : Chart :=
  { type := "multi-line", score := sc 88, priority := "good",
    vars := [("x_axis", nameAt dn 0), ("y_axes", VarVal.lst (nn.take 3)),
      ("group_by", nameAt cn 0), ("y_options", VarVal.lst nn),
      ("group_options", VarVal.lst cn)] }

def scatterChart (nn cn : List String) : Chart :=
  { type := "scatter", score := sc 95, priority := "best",
    vars := [("x_axis", nameAt nn 0), ("y_axis", nameAt nn 1),
      ("color_by", nameAt cn 0), ("x_options", VarVal.lst nn),
      ("y_options", VarVal.lst nn), ("color_options", VarVal.lst cn)] }

def bubbleChart (nn cn : List String) : Chart :=
  { type := "bubble", score := sc 85, priority := "good",
    vars := [("x_axis", nameAt nn 0), ("y_axis", nameAt nn 1),
      ("size", nameAt nn 2), ("color_by", nameAt cn 0),
      ("x_options", VarVal.lst nn), ("y_options", VarVal.lst nn),
      ("size_options", VarVal.lst nn), ("color_options", VarVal.lst cn)] }

def heatmapChart (nn : List String) : Chart :=
  { type := "heatmap", score := sc 88, priority := "good",
    vars := [("columns", VarVal.lst (nn.take 10)),
      ("all_options", VarVal.lst nn)] }

def barChart (nn cn : List String) : Chart :=
  { type := "bar", score := sc 95, priority := "best",
    vars := [("x_axis", nameAt cn 0), ("y_axis", countOr nn),
      ("x_options", VarVal.lst cn), ("y_options", VarVal.lst ("count" :: nn))] }

def horizontalBarChart (nn cn : List String) : Chart :=
  { type := "horizontal-bar", score := sc 90, priority := "good",
    vars := [("y_axis", nameAt cn 0), ("x_axis", countOr nn),
      ("y_options", VarVal.lst cn), ("x_options", VarVal.lst ("count" :: nn))] }

def pieChart (nn cn : List String) : Chart :=
  { type := "pie", score := sc 82, priority := "good",
    vars := [("category", nameAt cn 0), ("value", countOr nn),
      ("category_options", VarVal.lst cn),
      ("value_options", VarVal.lst ("count" :: nn))] }

def donutChart (nn cn : List String) : Chart :=
  { type := "donut", score := sc 80, priority := "alternative",
    vars := [("category", nameAt cn 0), ("value", countOr nn),
      ("category_options", VarVal.lst cn),
      ("value_options", VarVal.lst ("count" :: nn))] }

def groupedBarChart (nn cn : List String) : Chart :=
  { type := "grouped-bar", score := sc 92, priority := "best",
    vars := [("x_axis", nameAt cn 0), ("y_axis", nameAt nn 0),
      ("group_by", if 2 ≤ cn.length then nameAt cn 1 else VarVal.null),
      ("x_options", VarVal.lst cn), ("y_options", VarVal.lst nn),
      ("group_options", VarVal.lst cn)] }

def stackedBarChart (nn cn : List String) : Chart :=
  { type := "stacked-bar", score := sc 88, priority := "good",
    vars := [("x_axis", nameAt cn 0), ("y_axis", nameAt nn 0),
      ("stack_by", if 2 ≤ cn.length then nameAt cn 1 else VarVal.null),
      ("x_options", VarVal.lst cn), ("y_options", VarVal.lst nn),
      ("stack_options", VarVal.lst cn)] }

def groupedBoxChart (nn cn : List String) : Chart :=
  { type := "boxplot-grouped", score := sc 85, priority := "good",
    vars := [("x_axis", nameAt cn 0), ("y_axis", nameAt nn 0),
      ("x_options", VarVal.lst cn), ("y_options", VarVal.lst nn)] }

/-- `score_cols` of the radar rule: numeric columns whose lowercased
name contains `"score"` or `"rating"`. -/
def scoreCols (nn : List String) : List String :=
  nn.filter (fun c => containsLower c "score" || containsLower c "rating")

def radarChart (nn cn : List String) : Chart :=
  { type := "radar", score := sc 80, priority := "alternative",
    vars := [("metrics", VarVal.lst
        (if scoreCols nn ≠ [] then (scoreCols nn).take 6 else nn.take 6)),
      ("group_by", nameAt cn 0), ("metric_options", VarVal.lst nn),
      ("group_options", VarVal.lst cn)] }

def parallelChart (nn cn : List String) : Chart :=
  { type := "parallel", score := sc 75, priority := "alternative",
    vars := [("axes", VarVal.lst (nn.take 8)), ("color_by", nameAt cn 0),
      ("axis_options", VarVal.lst nn), ("color_options", VarVal.lst cn)] }

def densityChart (nn cn : List String) : Chart :=
  { type := "density", score := sc 78, priority := "alternative",
    vars := [("x_axis", nameAt nn 0), ("group_by", nameAt cn 0),
      ("x_options", VarVal.lst nn), ("group_options", VarVal.lst cn)] }

def ridgelineChart (nn cn : List String) : Chart :=
  { type := "ridgeline", score := sc 76, priority := "alternative",
    vars := [("x_axis", nameAt nn 0), ("category", nameAt cn 0),
      ("x_options", VarVal.lst nn), ("category_options", VarVal.lst cn)] }

def treemapChart (nn cn : List String) : Chart :=
  { type := "treemap", score := sc 74, priority := "alternative",
    vars := [("category", nameAt cn 0),
      ("subcategory", if 2 ≤ cn.length then nameAt cn 1 else VarVal.null),
      ("value", countOr nn), ("category_options", VarVal.lst cn),
      ("value_options", VarVal.lst ("count" :: nn))] }

def sunburstChart (nn cn : List String) : Chart :=
  { type := "sunburst", score := sc 72, priority := "alternative",
    vars := [("level1", nameAt cn 0), ("level2", nameAt cn 1),
      ("level3", if 3 ≤ cn.length then nameAt cn 2 else VarVal.null),
      ("value", countOr nn), ("category_options", VarVal.lst cn),
      ("value_options", VarVal.lst ("count" :: nn))] }

def waterfallChart (nn cn dn : List String) : Chart :=
  { type := "waterfall", score := sc 70, priority := "alternative",
    vars := [("category", match cn with
        | c :: _ => VarVal.s c
        | [] => nameAt dn 0),
      ("value", nameAt nn 0), ("category_options", VarVal.lst (cn ++ dn)),
      ("value_options", VarVal.lst nn)] }

def funnelChart (nn cn : List String) : Chart :=
  { type := "funnel", score := sc 68, priority := "alternative",
    vars := [("stage", nameAt cn 0), ("value", nameAt nn 0),
      ("stage_options", VarVal.lst cn), ("value_options", VarVal.lst nn)] }

/-- The candlestick rule's name scan: numeric columns whose lowercased
name contains one of `open`, `high`, `low`, `close`, `value`. -/
def ohlcCandidates (nn : List String) : List String :=
  nn.filter (fun c =>
    ["open", "high", "low", "close", "value"].any (fun x => containsLower c x))

def candlestickChart (nn dn : List String) : Chart :=
  { type := "candlestick", score := sc 66, priority := "alternative",
    vars := [("date", nameAt dn 0), ("open", nameAt nn 0),
      ("high", nameAt nn 1), ("low", nameAt nn 2), ("close", nameAt nn 3),
      ("numeric_options", VarVal.lst nn)] }

def scatter3dChart (nn cn : List String) : Chart :=
  { type := "scatter-3d", score := sc 64, priority := "alternative",
    vars := [("x_axis", nameAt nn 0), ("y_axis", nameAt nn 1),
      ("z_axis", nameAt nn 2), ("color_by", nameAt cn 0),
      ("x_options", VarVal.lst nn), ("y_options", VarVal.lst nn),
      ("z_options", VarVal.lst nn), ("color_options", VarVal.lst cn)] }

/-- The single entry returned for an empty column list. -/
def emptyErrorChart : Chart :=
  { type := "error", score := 0, priority := "error", vars := [] }

/-- The info entry appended when fewer than 5 recommendations exist. -/
def infoChart : Chart :=
  { type := "info", score := 0, priority := "info",
    vars := [("suggestion",
      VarVal.s "Veri setinize daha fazla sayısal veya kategorik sütun ekleyin")] }

/-- The rule table of `recommend_charts_from_data`: every rule whose
predicate holds contributes its recommendations, in the source's
emission order. -/
def emitAll (nn cn dn : List String) (hts : Bool) : List Chart :=
  (if 1 ≤ nn.length then [boxChart nn cn, violinChart nn] else [])
  ++ (if hts = true ∨ 0 < dn.length then
        [lineChart nn dn, areaChart nn dn, multiLineChart nn cn dn] else [])
  ++ (if 2 ≤ nn.length then
        [scatterChart nn cn]
        ++ (if 3 ≤ nn.length then [bubbleChart nn cn] else [])
        ++ [heatmapChart nn]
      else [])
  ++ (if 1 ≤ cn.length then
        [barChart nn cn, horizontalBarChart nn cn, pieChart nn cn, donutChart nn cn]
      else [])
  ++ (if 1 ≤ cn.length ∧ 1 ≤ nn.length then
        [groupedBarChart nn cn, stackedBarChart nn cn, groupedBoxChart nn cn]
      else [])
  ++ (if 3 ≤ nn.length then [radarChart nn cn, parallelChart nn cn] else [])
  ++ (if 1 ≤ nn.length then [densityChart nn cn] else [])
  ++ (if 1 ≤ cn.length ∧ 1 ≤ nn.length then [ridgelineChart nn cn] else [])
  ++ (if 1 ≤ cn.length then [treemapChart nn cn] else [])
  ++ (if 2 ≤ cn.length then [sunburstChart nn cn] else [])
  ++ (if 1 ≤ nn.length ∧ (hts = true ∨ 1 ≤ cn.length) then
        [waterfallChart nn cn dn] else [])
  ++ (if 1 ≤ cn.length ∧ 1 ≤ nn.length then [funnelChart nn cn] else [])
  ++ (if 4 ≤ nn.length ∧ hts = true then
        (if 4 ≤ (ohlcCandidates nn).length ∨ 4 ≤ nn.length then
          [candlestickChart nn dn] else [])
      else [])
  ++ (if 3 ≤ nn.length then [scatter3dChart nn cn] else [])

/-- One step of the stable descending-by-score insertion: the new
element goes after every element whose score is at least its own.
Composed over the list left-to-right this computes exactly what
Python's stable `list.sort(key=score, reverse=True)` computes. -/
def insertDesc (x : Chart) : List Chart → List Chart
  | [] => [x]
  | y :: ys => if y.score < x.score then x :: y :: ys else y :: insertDesc x ys

/-- Stable sort by score descending (ties keep emission order), the
model of `recommendations.sort(key=lambda x: x["score"], reverse=True)`. -/
def sortDesc (l : List Chart) : List Chart :=
  l.foldl (fun acc x => insertDesc x acc) []

/-- Post-processing of the emitted recommendations: stable sort by
score descending, info fallback when fewer than 5, truncation to 20. -/
def postprocess (recs : List Chart) : List Chart :=
  let sorted := sortDesc recs
  let final := if sorted.length < 5 then sorted ++ [infoChart] else sorted
  final.take 20

/-- The recommendation engine `recommend_charts_from_data` of the
source, over profile records that carry the `name` and `type` keys. -/
def recommend_charts_from_data (columns : List ColumnRecord) (hts : Bool) :
    List Chart :=
  let numeric_cols := columns.filter (fun c => c.type == "numeric")
  let categorical_cols := columns.filter (fun c => c.type == "categorical")
  let date_cols := columns.filter (fun c => c.type == "date")
  if columns.length = 0 then
    [emptyErrorChart]
  else
    postprocess (emitAll (numeric_cols.map (fun c => c.name))
      (categorical_cols.map (fun c => c.name))
      (date_cols.map (fun c => c.name)) hts)

/-! ### The raw recommendation boundary

`recommend_charts_from_data` receives, at the `/suggest-plots` boundary,
arbitrary dicts; `c["type"]` and `c["name"]` are plain key accesses that
raise `KeyError` when the key is absent.  `RawRecord` models such a dict
restricted to the two keys the function reads, and the `Except Unit`
monad models the raise. -/

/-- A profile dict as received over the wire: either key may be absent. -/
structure RawRecord where
  name : Option String
  type : Option String
deriving DecidableEq

/-- Accessing a dict key: `KeyError` when absent. -/
def getKey {α : Type} : Option α → Except Unit α
  | some v => Except.ok v
  | none => Except.error ()

/-- `[c for c in columns if c["type"] == t]`: raises at the first record
whose `type` key is absent. -/
def filterByType (columns : List RawRecord) (t : String) :
    Except Unit (List RawRecord) :=
  match columns with
  | [] => Except.ok []
  | c :: rest => do
      let ty ← getKey c.type
      let tail ← filterByType rest t
      pure (if ty == t then c :: tail else tail)

/-- `[c["name"] for c in cols]`: raises at the first record whose `name`
key is absent. -/
def getColNamesRaw (cols : List RawRecord) : Except Unit (List String) :=
  match cols with
  | [] => Except.ok []
  | c :: rest => do
      let n ← getKey c.name
      let tail ← getColNamesRaw rest
      pure (n :: tail)

/-- `recommend_charts_from_data` over raw dicts, with the key accesses
the source performs made explicit. -/
def recommend_charts_from_data_raw (columns : List RawRecord) (hts : Bool) :
    Except Unit (List Chart) := do
  let numeric_cols ← filterByType columns "numeric"
  let categorical_cols ← filterByType columns "categorical"
  let date_cols ← filterByType columns "date"
  if columns.length = 0 then
    pure [emptyErrorChart]
  else do
    let numeric_names ← getColNamesRaw numeric_cols
    let categorical_names ← getColNamesRaw categorical_cols
    let date_names ← getColNamesRaw date_cols
    pure (postprocess (emitAll numeric_names categorical_names date_names hts))

/-- Reading a raw dict as a total record (defaults never observed under
the well-formedness hypotheses used with it). -/
def stripRecord (c : RawRecord) : ColumnRecord :=
  { name := c.name.getD "", type := c.type.getD "" }

/-! ### The column profiler (`analyze_column`)

A pandas column is modelled by its dtype-dispatched value list: the
source's `is_numeric_dtype` / `is_datetime64_any_dtype` / `is_bool_dtype`
/ fallthrough cascade corresponds to the four constructors.  Missing
cells (`NaN` / `NaT`) are `none`.  Numeric cell values are modelled as
`ℚ`, datetimes as `Int` timestamps (only their order and their rendered
string are used), categorical values as the strings `str` coerces them
to. -/

/-- A dataframe column, tagged by its pandas dtype. -/
inductive ColumnValues where
  | numeric (vals : List (Option ℚ))
  | datetime (vals : List (Option Int))
  | boolean (vals : List (Option Bool))
  | strings (vals : List (Option String))
deriving DecidableEq

/-- `col.nunique()`: number of distinct non-missing values. -/
def nuniqueOf {α : Type} [DecidableEq α] (vals : List (Option α)) : Nat :=
  (vals.filterMap id).dedup.length

/-- `col.isna().sum()`: number of missing values. -/
def naCountOf {α : Type} (vals : List (Option α)) : Nat :=
  vals.countP (fun v => v.isNone)

/-- `col.mean()` on the non-missing values. -/
def sampleMean (l : List ℚ) : ℚ := l.sum / l.length

/-- Ascending insertion step for the median computation. -/
def insertAsc (x : ℚ) : List ℚ → List ℚ
  | [] => [x]
  | y :: ys => if x ≤ y then x :: y :: ys else y :: insertAsc x ys

/-- Ascending sort for the median computation. -/
def sortAsc (l : List ℚ) : List ℚ := l.foldr insertAsc []

/-- `col.median()` on the non-missing values: middle element of the
sorted list, or the average of the two middle elements. -/
def sampleMedian (l : List ℚ) : ℚ :=
  let s := sortAsc l
  if s.length % 2 = 1 then s.getD (s.length / 2) 0
  else (s.getD (s.length / 2 - 1) 0 + s.getD (s.length / 2) 0) / 2

/-- The sample variance (`ddof = 1`).  The source's `std` statistic is
the real square root of this quantity; the square root is not rational,
and every claim about `std` concerns only whether it is null, which the
root preserves, so the profile carries the variance. -/
def sampleVarianceNum (l : List ℚ) : ℚ :=
  (l.map (fun x => (x - sampleMean l) ^ 2)).sum / ((l.length : ℚ) - 1)

/-- The type-tagged `summary` union of a profile. -/
inductive ColumnSummary where
  | numericS (min max mean median std : Option ℚ)
  | dateS (min_date max_date : Option String)
  | boolS (true_count false_count : Nat)
deriving DecidableEq

/-- `col.value_counts().to_dict()` with `str`-coerced keys (the model's
categorical values are already the coerced strings).  pandas emits the
pairs ordered by descending frequency; the spec declares the order
irrelevant and no claim concerns it, so first-occurrence order is used. -/
def valueCounts (vals : List (Option String)) : List (String × Nat) :=
  let present := vals.filterMap id
  present.dedup.map (fun v => (v, present.count v))

/-- The profile dict produced by `analyze_column` (the `summary` and
`value_counts` keys are only present for the dtypes that set them). -/
structure ColumnAnalysis where
  name : String
  unique_count : Nat
  na_count : Nat
  type : String
  summary : Option ColumnSummary
  value_counts : Option (List (String × Nat))
deriving DecidableEq

/-- `analyze_column` of the source: dtype-dispatched classification and
type-specific summary statistics, each numeric/date statistic guarded by
`if not col.isna().all()`. -/
def analyze_column (name : String) (col : ColumnValues) : ColumnAnalysis :=
  match col with
  | ColumnValues.numeric vals =>
      let present := vals.filterMap id
      { name := name, unique_count := nuniqueOf vals, na_count := naCountOf vals,
        type := "numeric",
        summary := some (ColumnSummary.numericS
          (if present.isEmpty then none else present.min?)
          (if present.isEmpty then none else present.max?)
          (if present.isEmpty then none else some (sampleMean present))
          (if present.isEmpty then none else some (sampleMedian present))
          (if present.isEmpty then none else some (sampleVarianceNum present))),
        value_counts := none }
  | ColumnValues.datetime vals =>
      let present := vals.filterMap id
      { name := name, unique_count := nuniqueOf vals, na_count := naCountOf vals,
        type := "date",
        summary := some (ColumnSummary.dateS
          (if present.isEmpty then none else present.min?.map (fun d => toString d))
          (if present.isEmpty then none else present.max?.map (fun d => toString d))),
        value_counts := none }
  | ColumnValues.boolean vals =>
      let present := vals.filterMap id
      { name := name, unique_count := nuniqueOf vals, na_count := naCountOf vals,
        type := "boolean",
        summary := some (ColumnSummary.boolS
          (if present.isEmpty then 0 else present.countP (fun b => b))
          (if present.isEmpty then 0 else present.countP (fun b => !b))),
        value_counts := none }
  | ColumnValues.strings vals =>
      let uc := nuniqueOf vals
      { name := name, unique_count := uc, na_count := naCountOf vals,
        type := "categorical",
        summary := none,
        value_counts := if uc ≤ 50 then some (valueCounts vals) else none }

/-! ### Lemmas about the stable descending sort and post-processing -/

theorem mem_insertDesc {x c : Chart} : ∀ {l : List Chart},
    c ∈ insertDesc x l ↔ c = x ∨ c ∈ l := by
  intro l
  induction l with
  | nil => simp [insertDesc]
  | cons y ys ih =>
      simp only [insertDesc]
      split
      · simp [List.mem_cons]
      · simp only [List.mem_cons, ih]
        tauto

theorem sorted_insertDesc {x : Chart} : ∀ {l : List Chart},
    l.Sorted (fun a b => b.score ≤ a.score) →
    (insertDesc x l).Sorted (fun a b => b.score ≤ a.score) := by
  intro l
  induction l with
  | nil => intro _; simp [insertDesc]
  | cons y ys ih =>
      intro h
      rw [List.sorted_cons] at h
      simp only [insertDesc]
      split
      · rename_i hlt
        rw [List.sorted_cons]
        refine ⟨?_, List.sorted_cons.mpr h⟩
        intro z hz
        rcases List.mem_cons.mp hz with rfl | hz'
        · exact le_of_lt hlt
        · exact le_trans (h.1 z hz') (le_of_lt hlt)
      · rename_i hnlt
        rw [List.sorted_cons]
        refine ⟨?_, ih h.2⟩
        intro z hz
        rcases mem_insertDesc.mp hz with rfl | hz'
        · exact le_of_not_lt hnlt
        · exact h.1 z hz'

theorem sorted_foldl_insert : ∀ (l acc : List Chart),
    acc.Sorted (fun a b => b.score ≤ a.score) →
    (l.foldl (fun a x => insertDesc x a) acc).Sorted (fun a b => b.score ≤ a.score) := by
  intro l
  induction l with
  | nil => intro acc h; exact h
  | cons x xs ih => intro acc h; exact ih _ (sorted_insertDesc h)

theorem sorted_sortDesc (l : List Chart) :
    (sortDesc l).Sorted (fun a b => b.score ≤ a.score) :=
  sorted_foldl_insert l [] (by simp)

theorem mem_foldl_insert : ∀ (l acc : List Chart) (c : Chart),
    (c ∈ l.foldl (fun a x => insertDesc x a) acc ↔ c ∈ acc ∨ c ∈ l) := by
  intro l
  induction l with
  | nil => simp
  | cons x xs ih =>
      intro acc c
      simp only [List.foldl_cons, ih, mem_insertDesc, List.mem_cons]
      tauto

theorem mem_sortDesc {l : List Chart} {c : Chart} : c ∈ sortDesc l ↔ c ∈ l := by
  unfold sortDesc
  rw [mem_foldl_insert]
  simp

theorem emit_score_nonneg (nn cn dn : List String) (hts : Bool) :
    ∀ c ∈ emitAll nn cn dn hts, 0 ≤ c.score := by
  intro c hc
  unfold emitAll at hc
  simp only [List.mem_append, or_assoc] at hc
  rcases hc with hc|hc|hc|hc|hc|hc|hc|hc|hc|hc|hc|hc|hc|hc
  all_goals repeat' split at hc
  all_goals simp only [List.mem_append, List.mem_cons, List.not_mem_nil, or_false,
    false_or, or_assoc] at hc
  all_goals repeat' (first | (rcases hc with rfl | hc) | (cases hc))
  all_goals
    norm_num [boxChart, violinChart, lineChart, areaChart, multiLineChart,
      scatterChart, bubbleChart, heatmapChart, barChart, horizontalBarChart,
      pieChart, donutChart, groupedBarChart, stackedBarChart, groupedBoxChart,
      radarChart, parallelChart, densityChart, ridgelineChart, treemapChart,
      sunburstChart, waterfallChart, funnelChart, candlestickChart,
      scatter3dChart, sc, Rat.mkRat_eq_div]

theorem postprocess_sorted (recs : List Chart) (h : ∀ c ∈ recs, 0 ≤ c.score) :
    (postprocess recs).Sorted (fun a b => b.score ≤ a.score) := by
  unfold postprocess
  have hs := sorted_sortDesc recs
  have hfinal : (if (sortDesc recs).length < 5 then sortDesc recs ++ [infoChart]
      else sortDesc recs).Sorted (fun a b => b.score ≤ a.score) := by
    split
    · rw [List.Sorted, List.pairwise_append]
      refine ⟨hs, List.sorted_singleton _, ?_⟩
      intro a ha b hb
      rcases List.mem_singleton.mp hb with rfl
      have := h a (mem_sortDesc.mp ha)
      simpa [infoChart] using this
    · exact hs
  exact hfinal.sublist (List.take_sublist 20 _)

theorem postprocess_length_le (recs : List Chart) :
    (postprocess recs).length ≤ 20 := by
  unfold postprocess
  simp [List.length_take_le]

theorem postprocess_length_pos (recs : List Chart) :
    1 ≤ (postprocess recs).length := by
  unfold postprocess
  rw [List.length_take]
  refine le_min (by norm_num) ?_
  split
  · simp
  · omega

/-! ### Lemmas relating the raw boundary to the total engine -/

theorem except_bind_ok {α β : Type} (a : α) (f : α → Except Unit β) :
    (Except.ok a >>= f : Except Unit β) = f a := rfl

theorem except_pure_eq_ok {β : Type} (a : β) :
    (pure a : Except Unit β) = Except.ok a := rfl

theorem filterByType_eq_ok (columns : List RawRecord) (t : String)
    (h : ∀ c ∈ columns, c.type.isSome = true) :
    filterByType columns t
      = Except.ok (columns.filter (fun c => c.type == some t)) := by
  induction columns with
  | nil => rfl
  | cons c rest ih =>
      obtain ⟨v, hv⟩ := Option.isSome_iff_exists.mp (h c (by simp))
      rw [filterByType, hv]
      simp only [getKey, except_bind_ok,
        ih (fun x hx => h x (List.mem_cons_of_mem _ hx)), except_pure_eq_ok,
        List.filter_cons, hv]
      by_cases hvt : v = t <;> simp [hvt]

theorem getColNamesRaw_eq_ok (cols : List RawRecord)
    (h : ∀ c ∈ cols, c.name.isSome = true) :
    getColNamesRaw cols = Except.ok (cols.map (fun c => c.name.getD "")) := by
  induction cols with
  | nil => rfl
  | cons c rest ih =>
      obtain ⟨v, hv⟩ := Option.isSome_iff_exists.mp (h c (by simp))
      rw [getColNamesRaw, hv]
      simp [getKey, except_bind_ok,
        ih (fun x hx => h x (List.mem_cons_of_mem _ hx)), except_pure_eq_ok, hv]

theorem filter_map_strip (columns : List RawRecord) (t : String) (ht : t ≠ "") :
    (columns.map stripRecord).filter (fun c => c.type == t)
      = (columns.filter (fun c => c.type == some t)).map stripRecord := by
  induction columns with
  | nil => rfl
  | cons c rest ih =>
      simp only [List.map_cons, List.filter_cons]
      cases hty : c.type with
      | none =>
          have : (stripRecord c).type = "" := by simp [stripRecord, hty]
          simp [this, hty, ih, Ne.symm ht]
      | some v =>
          have : (stripRecord c).type = v := by simp [stripRecord, hty]
          by_cases hvt : v = t <;> simp [this, hty, hvt, ih]

/-! ### Claim theorems -/

/-- C1 (amended): the output of `recommend_charts_from_data` is always
sorted by score non-increasing, and recommendations with equal scores
keep the code's emission order.  That emission order differs from the
spec's rule-table row order: the radar/parallel and scatter-3d
productions are emitted after the categorical-comparison productions,
so a 0.80-scored donut entry precedes a 0.80-scored radar entry (second
conjunct, on a dataset with three numeric and one categorical column). -/
theorem c1_sorted_desc_ties_in_emission_order :
    (∀ (columns : List ColumnRecord) (hts : Bool),
      (recommend_charts_from_data columns hts).Sorted
        (fun a b => b.score ≤ a.score))
    ∧ ((recommend_charts_from_data
          [{ name := "a", type := "numeric" }, { name := "b", type := "numeric" },
           { name := "c", type := "numeric" }, { name := "d", type := "categorical" }]
          false).map (fun c => (c.type, c.score))
        = [("scatter", sc 95), ("bar", sc 95), ("grouped-bar", sc 92),
           ("box", sc 90), ("horizontal-bar", sc 90), ("heatmap", sc 88),
           ("stacked-bar", sc 88), ("violin", sc 85), ("bubble", sc 85),
           ("boxplot-grouped", sc 85), ("pie", sc 82), ("donut", sc 80),
           ("radar", sc 80), ("density", sc 78), ("ridgeline", sc 76),
           ("parallel", sc 75), ("treemap", sc 74), ("waterfall", sc 70),
           ("funnel", sc 68), ("scatter-3d", sc 64)]) := by
  constructor
  · intro columns hts
    unfold recommend_charts_from_data
    split
    · simp
    · exact postprocess_sorted _ (emit_score_nonneg _ _ _ _)
  · decide

/-- C1 counterexample: on the dataset with numeric columns a, b, c and
categorical column d, the donut entry (Categorical-comparison rule) and
the radar entry (Correlation-triple rule) both score 0.80, and donut
comes first — the opposite of the spec's rule-table row order, which the
claim asserts. -/
theorem c1_counterexample_donut_before_radar :
    ((recommend_charts_from_data
        [{ name := "a", type := "numeric" }, { name := "b", type := "numeric" },
         { name := "c", type := "numeric" }, { name := "d", type := "categorical" }]
        false)[11]?).map (fun c => (c.type, c.score)) = some ("donut", sc 80)
    ∧ ((recommend_charts_from_data
        [{ name := "a", type := "numeric" }, { name := "b", type := "numeric" },
         { name := "c", type := "numeric" }, { name := "d", type := "categorical" }]
        false)[12]?).map (fun c => (c.type, c.score)) = some ("radar", sc 80) := by
  decide

/-- C2: the recommendation list always has length at most 20, and for a
non-empty profile list it has length at least 1 (the info fallback fires
whenever fewer than 5 rule productions exist). -/
theorem c2_length_at_most_20_and_nonempty (columns : List ColumnRecord)
    (hts : Bool) :
    (recommend_charts_from_data columns hts).length ≤ 20
    ∧ (columns ≠ [] → 1 ≤ (recommend_charts_from_data columns hts).length) := by
  unfold recommend_charts_from_data
  split
  · exact ⟨by norm_num, fun _ => by norm_num⟩
  · exact ⟨postprocess_length_le _, fun _ => postprocess_length_pos _⟩

/-- C2 witness at a one-column profile list. -/
theorem c2_length_at_most_20_and_nonempty_witness :
    (recommend_charts_from_data [{ name := "a", type := "numeric" }] false).length ≤ 20
    ∧ 1 ≤ (recommend_charts_from_data [{ name := "a", type := "numeric" }] false).length :=
  ⟨(c2_length_at_most_20_and_nonempty [{ name := "a", type := "numeric" }] false).1,
   (c2_length_at_most_20_and_nonempty [{ name := "a", type := "numeric" }] false).2
     (by decide)⟩

/-- C3 (amended): whenever at least 4 numeric columns exist and
`has_time_series` is true, the candlestick rule emits (into the
pre-truncation list) a candlestick recommendation with score 0.66 whose
open/high/low/close bindings are always the first four numeric columns
in original column order; the OHLC name scan (`ohlcCandidates`) never
influences the bindings, its only use being a vacuously true guard.  The
entry reaches the final output only if it survives the 20-entry
truncation. -/
theorem c3_candlestick_positional_bindings (nn cn dn : List String)
    (h4 : 4 ≤ nn.length) :
    candlestickChart nn dn ∈ emitAll nn cn dn true
    ∧ (candlestickChart nn dn).score = 0.66
    ∧ lookupVar (candlestickChart nn dn) "open" = some (nameAt nn 0)
    ∧ lookupVar (candlestickChart nn dn) "high" = some (nameAt nn 1)
    ∧ lookupVar (candlestickChart nn dn) "low" = some (nameAt nn 2)
    ∧ lookupVar (candlestickChart nn dn) "close" = some (nameAt nn 3) := by
  have h1 : 1 ≤ nn.length := by omega
  have h2 : 2 ≤ nn.length := by omega
  have h3 : 3 ≤ nn.length := by omega
  refine ⟨?_, by norm_num [candlestickChart, sc, Rat.mkRat_eq_div], rfl, rfl, rfl, rfl⟩
  simp [emitAll, h1, h2, h3, h4]

/-- C3 witness at four numeric columns and no categorical/date columns. -/
theorem c3_candlestick_positional_bindings_witness :
    candlestickChart ["a", "b", "c", "d"] [] ∈ emitAll ["a", "b", "c", "d"] [] [] true
    ∧ (candlestickChart ["a", "b", "c", "d"] []).score = 0.66
    ∧ lookupVar (candlestickChart ["a", "b", "c", "d"] []) "open"
        = some (nameAt ["a", "b", "c", "d"] 0)
    ∧ lookupVar (candlestickChart ["a", "b", "c", "d"] []) "high"
        = some (nameAt ["a", "b", "c", "d"] 1)
    ∧ lookupVar (candlestickChart ["a", "b", "c", "d"] []) "low"
        = some (nameAt ["a", "b", "c", "d"] 2)
    ∧ lookupVar (candlestickChart ["a", "b", "c", "d"] []) "close"
        = some (nameAt ["a", "b", "c", "d"] 3) :=
  c3_candlestick_positional_bindings ["a", "b", "c", "d"] [] [] (by decide)

/-- C3 counterexample: with numeric columns a, b, c, d, open, high, low,
close and a time series, the name scan finds the four OHLC-named columns,
yet the emitted (and here final-output) candlestick binds open/high/low/
close to a, b, c, d — the first four numeric columns positionally — so
the bindings do not prefer name-matched columns as the claim states. -/
theorem c3_counterexample_name_matches_ignored :
    ((recommend_charts_from_data
        [{ name := "a", type := "numeric" }, { name := "b", type := "numeric" },
         { name := "c", type := "numeric" }, { name := "d", type := "numeric" },
         { name := "open", type := "numeric" }, { name := "high", type := "numeric" },
         { name := "low", type := "numeric" }, { name := "close", type := "numeric" }]
        true).find? (fun c => c.type == "candlestick")).map
      (fun c => (lookupVar c "open", lookupVar c "high",
        lookupVar c "low", lookupVar c "close"))
      = some (some (VarVal.s "a"), some (VarVal.s "b"),
          some (VarVal.s "c"), some (VarVal.s "d"))
    ∧ ohlcCandidates ["a", "b", "c", "d", "open", "high", "low", "close"]
      = ["open", "high", "low", "close"] := by
  decide

/-- C4 (amended): `recommend_charts_from_data` never raises provided
every record carries the `type` key and every record typed
numeric/categorical/date carries the `name` key; a record with an
unrecognized `type` value is skipped by all three type buckets (the
result equals the total engine's result, whose buckets filter on the
three recognized types).  A record missing the `type` key, however,
makes the function raise `KeyError` (see the counterexample). -/
theorem c4_no_raise_with_type_keys (columns : List RawRecord) (hts : Bool)
    (htype : ∀ c ∈ columns, c.type.isSome = true)
    (hname : ∀ c ∈ columns,
      (c.type = some "numeric" ∨ c.type = some "categorical" ∨ c.type = some "date") →
      c.name.isSome = true) :
    recommend_charts_from_data_raw columns hts
      = Except.ok (recommend_charts_from_data (columns.map stripRecord) hts) := by
  have hnum : ∀ c ∈ columns.filter (fun c => c.type == some "numeric"),
      c.name.isSome = true := by
    intro c hc
    rw [List.mem_filter] at hc
    exact hname c hc.1 (Or.inl (by simpa using hc.2))
  have hcat : ∀ c ∈ columns.filter (fun c => c.type == some "categorical"),
      c.name.isSome = true := by
    intro c hc
    rw [List.mem_filter] at hc
    exact hname c hc.1 (Or.inr (Or.inl (by simpa using hc.2)))
  have hdat : ∀ c ∈ columns.filter (fun c => c.type == some "date"),
      c.name.isSome = true := by
    intro c hc
    rw [List.mem_filter] at hc
    exact hname c hc.1 (Or.inr (Or.inr (by simpa using hc.2)))
  unfold recommend_charts_from_data_raw recommend_charts_from_data
  rw [filterByType_eq_ok _ _ htype, filterByType_eq_ok _ _ htype,
    filterByType_eq_ok _ _ htype]
  simp only [except_bind_ok]
  by_cases h0 : columns.length = 0
  · rw [if_pos h0, if_pos (by rwa [List.length_map])]
    rfl
  · rw [if_neg h0, if_neg (by rwa [List.length_map])]
    rw [getColNamesRaw_eq_ok _ hnum, getColNamesRaw_eq_ok _ hcat,
      getColNamesRaw_eq_ok _ hdat]
    simp only [except_bind_ok, except_pure_eq_ok]
    rw [filter_map_strip _ _ (by decide), filter_map_strip _ _ (by decide),
      filter_map_strip _ _ (by decide)]
    simp [List.map_map, Function.comp_def, stripRecord]

/-- C4 witness: a well-typed numeric record plus a boolean-typed record
with no name — no raise, and the boolean record lands in no bucket. -/
theorem c4_no_raise_with_type_keys_witness :
    recommend_charts_from_data_raw
        [{ name := some "a", type := some "numeric" },
         { name := none, type := some "boolean" }] false
      = Except.ok (recommend_charts_from_data
          (([{ name := some "a", type := some "numeric" },
             { name := none, type := some "boolean" }] :
            List RawRecord).map stripRecord) false) :=
  c4_no_raise_with_type_keys
    [{ name := some "a", type := some "numeric" },
     { name := none, type := some "boolean" }] false (by decide) (by decide)

/-- C4 counterexample: a single record missing the `type` key makes
`recommend_charts_from_data` raise (`c["type"]` is a `KeyError`), so the
claim's "never raises for records missing the type field" is false. -/
theorem c4_counterexample_missing_type_key_raises :
    recommend_charts_from_data_raw [{ name := some "x", type := none }] false
      = Except.error () := rfl

/-- C5: the empty profile list yields exactly the one error-priority
entry, and no entry of the output has the info priority — the empty case
returns before the fewer-than-5 fallback is evaluated. -/
theorem c5_empty_input_single_error_entry (hts : Bool) :
    recommend_charts_from_data [] hts = [emptyErrorChart]
    ∧ emptyErrorChart.priority = "error"
    ∧ ∀ c ∈ recommend_charts_from_data [] hts, c.priority ≠ "info" := by
  cases hts <;> exact ⟨rfl, rfl, by decide⟩

/-- C6 (amended): a profile list with no numeric, categorical or date
columns (and `has_time_series` false) yields exactly one recommendation
with score 0 — but it is the `error` entry only for the empty list; for
a non-empty such list (e.g. all-boolean columns) it is the `info`
fallback entry, whose type and priority are `info`, not `error`. -/
theorem c6_no_typed_columns_single_zero_entry (columns : List ColumnRecord)
    (h : ∀ c ∈ columns,
      c.type ≠ "numeric" ∧ c.type ≠ "categorical" ∧ c.type ≠ "date") :
    recommend_charts_from_data columns false
      = [if columns.isEmpty then emptyErrorChart else infoChart]
    ∧ (if columns.isEmpty then emptyErrorChart else infoChart).score = 0
    ∧ (if columns.isEmpty then emptyErrorChart else infoChart).type
        = (if columns.isEmpty then "error" else "info") := by
  rcases columns with _ | ⟨c, rest⟩
  · exact ⟨rfl, rfl, rfl⟩
  · have hn : (c :: rest).filter (fun x => x.type == "numeric") = [] := by
      rw [List.filter_eq_nil_iff]
      intro x hx
      simp [(h x hx).1]
    have hc : (c :: rest).filter (fun x => x.type == "categorical") = [] := by
      rw [List.filter_eq_nil_iff]
      intro x hx
      simp [(h x hx).2.1]
    have hd : (c :: rest).filter (fun x => x.type == "date") = [] := by
      rw [List.filter_eq_nil_iff]
      intro x hx
      simp [(h x hx).2.2]
    refine ⟨?_, by norm_num [infoChart, sc, Rat.mkRat_eq_div],
      by simp [infoChart]⟩
    simp only [recommend_charts_from_data, hn, hc, hd]
    norm_num
    rfl

/-- C6 witness at a single boolean column. -/
theorem c6_no_typed_columns_single_zero_entry_witness :
    recommend_charts_from_data [{ name := "flag", type := "boolean" }] false
      = [if ([{ name := "flag", type := "boolean" }] : List ColumnRecord).isEmpty
          then emptyErrorChart else infoChart]
    ∧ (if ([{ name := "flag", type := "boolean" }] : List ColumnRecord).isEmpty
        then emptyErrorChart else infoChart).score = 0
    ∧ (if ([{ name := "flag", type := "boolean" }] : List ColumnRecord).isEmpty
        then emptyErrorChart else infoChart).type
        = (if ([{ name := "flag", type := "boolean" }] : List ColumnRecord).isEmpty
            then "error" else "info") :=
  c6_no_typed_columns_single_zero_entry [{ name := "flag", type := "boolean" }]
    (by decide)

/-- C6 counterexample: the non-empty all-boolean profile list yields one
recommendation of type `info` (the fallback), not `error`, refuting the
claim as stated for non-empty lists with zero typed columns. -/
theorem c6_counterexample_boolean_column_gives_info :
    recommend_charts_from_data [{ name := "flag", type := "boolean" }] false
      = [infoChart]
    ∧ infoChart.type = "info" ∧ infoChart.type ≠ "error"
    ∧ infoChart.score = 0 := by
  refine ⟨by decide, rfl, by decide, rfl⟩

/-- C7: profiling a numeric column whose values are all missing
produces null min/max/mean/median/std statistics (and, the profiler
being a total function, cannot raise). -/
theorem c7_all_missing_numeric_null_stats (name : String)
    (vals : List (Option ℚ)) (h : ∀ v ∈ vals, v = none) :
    (analyze_column name (ColumnValues.numeric vals)).summary
      = some (ColumnSummary.numericS none none none none none)
    ∧ (analyze_column name (ColumnValues.numeric vals)).type = "numeric" := by
  have hp : vals.filterMap id = [] := by
    rw [List.filterMap_eq_nil_iff]
    simpa using h
  exact ⟨by simp [analyze_column, hp], rfl⟩

/-- C7 witness at a two-row all-missing numeric column. -/
theorem c7_all_missing_numeric_null_stats_witness :
    (analyze_column "x" (ColumnValues.numeric [none, none])).summary
      = some (ColumnSummary.numericS none none none none none)
    ∧ (analyze_column "x" (ColumnValues.numeric [none, none])).type = "numeric" :=
  c7_all_missing_numeric_null_stats "x" [none, none] (by decide)

/-- C8: a categorical column's profile carries a value-frequency table
exactly when its `unique_count` is at most 50. -/
theorem c8_value_counts_iff_low_cardinality (name : String)
    (vals : List (Option String)) :
    (analyze_column name (ColumnValues.strings vals)).type = "categorical"
    ∧ ((analyze_column name (ColumnValues.strings vals)).value_counts.isSome = true
        ↔ (analyze_column name (ColumnValues.strings vals)).unique_count ≤ 50) := by
  refine ⟨rfl, ?_⟩
  simp only [analyze_column]
  split <;> simp_all

/-- C9: for the profile list [date `order_date`, numeric `sales`], the
output starts with the line recommendation, which binds `x_axis` to
`order_date` and `y_axis` to `sales` and scores 0.98 (whatever the
`has_time_series` flag, since a date column alone triggers the rule). -/
theorem c9_line_chart_ranked_first (hts : Bool) :
    (recommend_charts_from_data
        [{ name := "order_date", type := "date" },
         { name := "sales", type := "numeric" }] hts).head?
      = some (lineChart ["sales"] ["order_date"])
    ∧ (lineChart ["sales"] ["order_date"]).type = "line"
    ∧ (lineChart ["sales"] ["order_date"]).score = 0.98
    ∧ lookupVar (lineChart ["sales"] ["order_date"]) "x_axis"
        = some (VarVal.s "order_date")
    ∧ lookupVar (lineChart ["sales"] ["order_date"]) "y_axis"
        = some (VarVal.s "sales") := by
  cases hts <;>
    exact ⟨by decide, rfl, by norm_num [lineChart, sc, Rat.mkRat_eq_div], rfl, rfl⟩

/-- C10: for non-empty inputs with the same flag, the output depends
only on the ordered numeric-, categorical- and date-typed sublists of
the profile records; records of any other type (e.g. boolean) never
alter any recommendation. -/
theorem c10_output_depends_only_on_typed_sublists
    (l1 l2 : List ColumnRecord) (hts : Bool) (h1 : l1 ≠ []) (h2 : l2 ≠ [])
    (hn : l1.filter (fun c => c.type == "numeric")
        = l2.filter (fun c => c.type == "numeric"))
    (hc : l1.filter (fun c => c.type == "categorical")
        = l2.filter (fun c => c.type == "categorical"))
    (hd : l1.filter (fun c => c.type == "date")
        = l2.filter (fun c => c.type == "date")) :
    recommend_charts_from_data l1 hts = recommend_charts_from_data l2 hts := by
  have h1' : ¬ l1.length = 0 := by simpa [List.length_eq_zero] using h1
  have h2' : ¬ l2.length = 0 := by simpa [List.length_eq_zero] using h2
  simp only [recommend_charts_from_data, hn, hc, hd, if_neg h1', if_neg h2']

/-- C10 witness: a numeric+boolean list versus a reordered list with an
unrecognized-type record — identical outputs. -/
theorem c10_output_depends_only_on_typed_sublists_witness :
    recommend_charts_from_data
        [{ name := "a", type := "numeric" }, { name := "b", type := "boolean" }] false
      = recommend_charts_from_data
        [{ name := "z", type := "text" }, { name := "a", type := "numeric" }] false :=
  c10_output_depends_only_on_typed_sublists
    [{ name := "a", type := "numeric" }, { name := "b", type := "boolean" }]
    [{ name := "z", type := "text" }, { name := "a", type := "numeric" }] false
    (by decide) (by decide) (by decide) (by decide) (by decide)

end DataViz
